import Mathlib

/-!
Verification of the Bunyan workspace-lifecycle orchestrator.

The data model follows the repository's API reference types (`Repo`,
`Workspace`, `TmuxPane`, `WorkspacePaneInfo`) and the frontend helper
functions in `src/lib/helpers` / `App.tsx` (`SHELLS`, `isShellPane`,
`getWorktreeStatus`, `CreateWorktreeModal.validate`).

The backend orchestrator itself (the Rust side of the Tauri app /
`bunyan serve`) is not part of the given sources; its create / open /
archive workflows are modelled from the specification, as marked on the
individual definitions.
-/

namespace Bunyan

/-- Lifecycle state of a workspace: the schema admits exactly these two
    values (`state: "ready" | "archived"` in the API reference). -/
inductive WorkspaceState
  | ready
  | archived
  deriving DecidableEq, Repr

/-- `container_mode: "local" | "container"` in the API reference. -/
inductive ContainerMode
  | localMode
  | containerMode
  deriving DecidableEq, Repr

/-- Repository row (the fields the orchestrator workflows need). -/
structure Repo where
  id : String
  name : String
  deriving DecidableEq, Repr

/-- Workspace row, as in the API reference (timestamps omitted). -/
structure Workspace where
  id : String
  repository_id : String
  directory_name : String
  branch : String
  state : WorkspaceState
  container_mode : ContainerMode
  container_id : Option String
  deriving DecidableEq, Repr

/-- A live tmux pane, as in the API reference `TmuxPane` type. -/
structure TmuxPane where
  pane_index : Nat
  command : String
  is_active : Bool
  workspace_path : String
  pane_pid : Nat
  deriving DecidableEq, Repr

/-- Ephemeral aggregate of the panes of one workspace's window
    (API reference `WorkspacePaneInfo`). -/
structure WorkspacePaneInfo where
  workspace_id : String
  repo_name : String
  workspace_name : String
  panes : List TmuxPane
  deriving DecidableEq, Repr

/-- The fixed allow-list of shell program names
    (`export const SHELLS = ["zsh", "bash", "fish", "sh"]`). -/
def SHELLS : List String := ["zsh", "bash", "fish", "sh"]

/-- `isShellPane(pane) { return SHELLS.includes(pane.command); }` -/
def isShellPane (pane : TmuxPane) : Bool :=
  SHELLS.contains pane.command

/-- The four derived worktree statuses of the frontend
    (`type WorktreeStatus = "active" | "shell-only" | "idle" | "archived"`). -/
inductive WorktreeStatus
  | active
  | shellOnly
  | idle
  | archived
  deriving DecidableEq, Repr

/-- `getWorktreeStatus(workspace, paneInfo)` from `src/lib/helpers` /
    `App.tsx`:
    archived state wins; a missing pane-info record or an empty pane list
    gives `idle`; `hasClaude = panes.some(p => !isShellPane(p))` gives
    `active`; otherwise `shell-only`. -/
def getWorktreeStatus (workspace : Workspace)
    (paneInfo : Option WorkspacePaneInfo) : WorktreeStatus :=
  if workspace.state = WorkspaceState.archived then WorktreeStatus.archived
  else
    match paneInfo with
    | none => WorktreeStatus.idle
    | some info =>
      if info.panes.length == 0 then WorktreeStatus.idle
      else
        let hasClaude := info.panes.any (fun p => !isShellPane p)
        if hasClaude then WorktreeStatus.active else WorktreeStatus.shellOnly

/-- The derived worktree status as the claim words it: "archived" whenever
    the workspace state is archived, regardless of any panes; otherwise
    "idle" if the pane set is empty; otherwise "active" if at least one
    pane is a non-shell (agent) pane; otherwise "shell-only". Stated
    independently of `getWorktreeStatus` to compare the two. -/
def worktreeStatusSpec (workspace : Workspace)
    (paneInfo : Option WorkspacePaneInfo) : WorktreeStatus :=
  let panes := match paneInfo with
    | none => []
    | some info => info.panes
  if workspace.state = WorkspaceState.archived then WorktreeStatus.archived
  else if panes = [] then WorktreeStatus.idle
  else if ∃ p ∈ panes, isShellPane p = false then WorktreeStatus.active
  else WorktreeStatus.shellOnly

/-- `CreateWorktreeModal.validate` from `tree-panel.tsx` / `App.tsx`:
    returns the empty string on success, an error message otherwise.
    The JavaScript emptiness test `!name.trim()` (true exactly when every
    character of the name is whitespace, in particular for the empty
    name) and the whitespace test `/\s/.test(name)` are both embedded as
    character-level scans. -/
def validate (repoId : String) (name : String)
    (workspaces : List Workspace) : String :=
  if name.data.all (fun c => c.isWhitespace) then "Name is required"
  else if name.data.any (fun c => c.isWhitespace) then "No spaces allowed"
  else if ((workspaces.filter (fun ws => ws.repository_id = repoId)).any
      (fun ws => ws.directory_name = name)) then "Name already exists"
  else ""

/-- A live tmux window of the dedicated bunyan server: one per workspace,
    living in the session named after the workspace's repository
    (docs/TMUX_SESSION_MANAGEMENT.md topology). -/
structure TmuxWindow where
  session : String
  name : String
  panes : List TmuxPane
  deriving DecidableEq, Repr

/-- Modelled from the spec: the combined state of the registry rows and
    the three external subsystems (filesystem checkouts, tmux topology,
    docker containers and networks) that the missing backend orchestrator
    coordinates. `dirtyPaths` records which checkouts currently have
    staged, unstaged, or untracked changes. -/
structure World where
  repos : List Repo
  workspaces : List Workspace
  worktrees : List String
  dirtyPaths : List String
  windows : List TmuxWindow
  containers : List String
  networks : List String
  deriving DecidableEq, Repr

/-- Checkout path of a workspace:
    `~/bunyan/workspaces/<repo-name>/<directory_name>`
    (skills/bunyan/reference/worktree-workflows.md). -/
def workspacePath (repoName ident : String) : String :=
  "~/bunyan/workspaces/" ++ repoName ++ "/" ++ ident

/-- Tmux session name of a repository: exactly the repo `name` field from
    the DB (docs/TMUX_SESSION_MANAGEMENT.md, Naming Conventions). Handling
    a collision between two same-named repos by suffixing is left as a
    TODO in the repository and is therefore absent here as well. -/
def tmuxSessionName (repoName : String) : String := repoName

/-- Docker network of a repository: `bunyan-<repo-name>`
    (skills/bunyan/SKILL.md container workflows). -/
def networkName (repoName : String) : String := "bunyan-" ++ repoName

def findRepo (w : World) (repoId : String) : Option Repo :=
  w.repos.find? (fun r => r.id == repoId)

def findWorkspace (w : World) (wsId : String) : Option Workspace :=
  w.workspaces.find? (fun ws => ws.id == wsId)

/-- `isDirty(path)`: true when the checkout has uncommitted changes. -/
def isDirty (w : World) (path : String) : Bool :=
  w.dirtyPaths.contains path

def findWin (l : List TmuxWindow) (session name : String) : Option TmuxWindow :=
  l.find? (fun win => win.session == session && win.name == name)

def findWindow (w : World) (session name : String) : Option TmuxWindow :=
  findWin w.windows session name

/-- Error taxonomy of the orchestrator (spec §7); `dirtyWorktree` is the
    error surfaced as HTTP 409 Conflict when archiving a dirty checkout
    without force. -/
inductive OrchError
  | validationError (msg : String)
  | notFound
  | conflict
  | dirtyWorktree
  | vcsError
  | containerError
  deriving DecidableEq, Repr

instance {ε α : Type} [DecidableEq ε] [DecidableEq α] :
    DecidableEq (Except ε α) := fun x y =>
  match x, y with
  | Except.error a, Except.error b => decidable_of_iff (a = b) (by simp)
  | Except.ok a, Except.ok b => decidable_of_iff (a = b) (by simp)
  | Except.error _, Except.ok _ => isFalse (by simp)
  | Except.ok _, Except.error _ => isFalse (by simp)

structure CreateResult where
  world : World
  outcome : Except OrchError Workspace
  deriving DecidableEq, Repr

/-- Modelled from the spec: the orchestrator's
    `Create(repoId, identifier, branch, containerMode)` workflow (§4.5),
    whose backend implementation is not among the given sources. Validate
    identifier (using the same rules as the frontend
    `CreateWorktreeModal.validate`) before any external side effect, then
    `addWorktree` (fails with a VCS error when the path is occupied), then
    persist the row in `ready` state, then for container mode
    `ensureNetwork` and `createContainer`; a container-step failure
    (modelled by `containerOk = false`) surfaces the error and rolls
    nothing back. `newId` stands for the id the registry assigns. -/
def create (w : World) (repoId ident branch : String) (mode : ContainerMode)
    (containerOk : Bool) (newId : String) : CreateResult :=
  let err := validate repoId ident w.workspaces
  if err = "" then
    match findRepo w repoId with
    | none => ⟨w, Except.error OrchError.notFound⟩
    | some repo =>
      let path := workspacePath repo.name ident
      if w.worktrees.contains path then ⟨w, Except.error OrchError.vcsError⟩
      else
        let ws : Workspace :=
          { id := newId, repository_id := repoId, directory_name := ident,
            branch := branch, state := WorkspaceState.ready,
            container_mode := mode, container_id := none }
        let w2 : World :=
          { w with worktrees := path :: w.worktrees,
                   workspaces := w.workspaces ++ [ws] }
        match mode with
        | ContainerMode.localMode => ⟨w2, Except.ok ws⟩
        | ContainerMode.containerMode =>
          let net := networkName repo.name
          let w3 : World :=
            { w2 with networks :=
                if w2.networks.contains net then w2.networks
                else net :: w2.networks }
          if containerOk then
            let cid := "bunyan-container-" ++ newId
            let w4 : World :=
              { w3 with containers := cid :: w3.containers,
                        workspaces := w3.workspaces.map (fun r =>
                          if r.id = newId then { r with container_id := some cid }
                          else r) }
            ⟨w4, Except.ok { ws with container_id := some cid }⟩
          else ⟨w3, Except.error OrchError.containerError⟩
  else ⟨w, Except.error (OrchError.validationError err)⟩

/-- Teardown steps of the archive workflow, in execution order. -/
inductive Action
  | killWindow (session name : String)
  | removeContainer (cid : String)
  | removeNetwork (net : String)
  | removeWorktree (path : String)
  | persistArchived (wsId : String)
  deriving DecidableEq, Repr

structure ArchiveResult where
  world : World
  outcome : Except OrchError (List Action)
  deriving DecidableEq, Repr

/-- `removeNetworkIfUnused` guard: true iff no other non-archived
    workspace of the same repository is still container-mode (spec §4.3). -/
def networkUnused (workspaces : List Workspace) (ws : Workspace) : Bool :=
  !(workspaces.any (fun r =>
    r.id ≠ ws.id && r.repository_id = ws.repository_id &&
    r.state = WorkspaceState.ready &&
    r.container_mode = ContainerMode.containerMode))

/-- Name of the repository a workspace belongs to, as the archive/open
    workflows resolve it (empty when the repo row is missing). -/
def repoNameOf (w : World) (ws : Workspace) : String :=
  match findRepo w ws.repository_id with
  | some r => r.name
  | none => ""

/-- Modelled from the spec: the container part of the archive teardown —
    for a container-mode workspace remove its container (when one is
    recorded) and then `removeNetworkIfUnused`; a local workspace is left
    alone. Returns the updated world and the steps executed. -/
def containerPhase (w : World) (ws : Workspace) (repoName : String) :
    World × List Action :=
  match ws.container_mode, ws.container_id with
  | ContainerMode.localMode, _ => (w, [])
  | ContainerMode.containerMode, some cid =>
    let wA : World :=
      { w with containers := w.containers.filter (fun c => c ≠ cid) }
    if networkUnused wA.workspaces ws then
      ({ wA with networks :=
          wA.networks.filter (fun n => n ≠ networkName repoName) },
       [Action.removeContainer cid, Action.removeNetwork (networkName repoName)])
    else (wA, [Action.removeContainer cid])
  | ContainerMode.containerMode, none =>
    if networkUnused w.workspaces ws then
      ({ w with networks :=
          w.networks.filter (fun n => n ≠ networkName repoName) },
       [Action.removeNetwork (networkName repoName)])
    else (w, [])

/-- Modelled from the spec: the destructive tail of the archive workflow
    (§4.5), run only after the lookup and dirty checks have passed: kill
    the tmux window, then for container mode remove the container and the
    network if unused, then remove the worktree, and only then persist the
    row as archived. The executed teardown steps are returned in order. -/
def archiveTeardown (w : World) (wsId : String) (ws : Workspace) : ArchiveResult :=
  let repoName := repoNameOf w ws
  let path := workspacePath repoName ws.directory_name
  let w1 : World :=
    { w with windows := w.windows.filter (fun win =>
        !(win.session == tmuxSessionName repoName &&
          win.name == ws.directory_name)) }
  let step2 := containerPhase w1 ws repoName
  let w3 : World :=
    { step2.1 with worktrees := step2.1.worktrees.filter (fun p => p ≠ path) }
  let w4 : World :=
    { w3 with workspaces := w3.workspaces.map (fun r =>
        if r.id = wsId then
          { r with state := WorkspaceState.archived, container_id := none }
        else r) }
  ⟨w4, Except.ok (Action.killWindow (tmuxSessionName repoName)
        ws.directory_name :: step2.2 ++
        [Action.removeWorktree path, Action.persistArchived wsId])⟩

/-- Modelled from the spec: the orchestrator's `Archive(workspaceId, force)`
    workflow (§4.5), whose backend implementation is not among the given
    sources. Look up the workspace (`notFound` if absent, `conflict` if
    already archived); without `force`, a dirty checkout aborts with
    `dirtyWorktree` before any destructive step; otherwise run the
    teardown. -/
def archive (w : World) (wsId : String) (force : Bool) : ArchiveResult :=
  match findWorkspace w wsId with
  | none => ⟨w, Except.error OrchError.notFound⟩
  | some ws =>
    match ws.state with
    | WorkspaceState.archived => ⟨w, Except.error OrchError.conflict⟩
    | WorkspaceState.ready =>
      if !force && isDirty w (workspacePath (repoNameOf w ws) ws.directory_name) then
        ⟨w, Except.error OrchError.dirtyWorktree⟩
      else archiveTeardown w wsId ws

inductive OpenStatus
  | created
  | attached
  deriving DecidableEq, Repr

structure OpenResult where
  world : World
  outcome : Except OrchError OpenStatus
  deriving DecidableEq, Repr

/-- Modelled from the spec: `ensureWindow` — create the session/window
    lazily if absent; a no-op when the window already exists (§4.2). -/
def ensureWindow (w : World) (session nme : String) : World :=
  match findWindow w session nme with
  | some _ => w
  | none =>
    { w with windows := w.windows ++
        [{ session := session, name := nme, panes := [] }] }

/-- A freshly created pane running the agent entry command. -/
def agentPane (idx : Nat) (path : String) : TmuxPane :=
  { pane_index := idx, command := "claude", is_active := true,
    workspace_path := path, pane_pid := 0 }

/-- Split a new pane into the window with the given session and name. -/
def addPaneToWindow (l : List TmuxWindow) (session nme : String)
    (p : TmuxPane) : List TmuxWindow :=
  l.map (fun v =>
    if v.session == session && v.name == nme then
      { v with panes := v.panes ++ [p] }
    else v)

/-- Modelled from the spec: the orchestrator's `Open(workspaceId)` workflow
    for the agent program (§4.2 / §4.5), whose backend implementation is
    not among the given sources. Look up the workspace (`notFound` when
    absent or archived); `ensureWindow` lazily creates the repo session
    and workspace window; if a pane already runs a non-shell (agent)
    command the call attaches to it, otherwise it creates one pane running
    the agent entry command. -/
def openAgentReady (w : World) (ws : Workspace) : OpenResult :=
  let repoName := repoNameOf w ws
  let session := tmuxSessionName repoName
  let path := workspacePath repoName ws.directory_name
  let w1 := ensureWindow w session ws.directory_name
  let win := (findWindow w1 session ws.directory_name).getD
    { session := session, name := ws.directory_name, panes := [] }
  if win.panes.any (fun p => !isShellPane p) then
    ⟨w1, Except.ok OpenStatus.attached⟩
  else
    ⟨{ w1 with windows := (addPaneToWindow w1.windows session
          ws.directory_name (agentPane win.panes.length path)) },
     Except.ok OpenStatus.created⟩

/-- Modelled from the spec: the lookup guard of Open — `notFound` when the
    workspace is absent or archived, otherwise the ready-branch above. -/
def openAgent (w : World) (wsId : String) : OpenResult :=
  match findWorkspace w wsId with
  | none => ⟨w, Except.error OrchError.notFound⟩
  | some ws =>
    match ws.state with
    | WorkspaceState.archived => ⟨w, Except.error OrchError.notFound⟩
    | WorkspaceState.ready => openAgentReady w ws

/-- The workspace's window as the open workflow sees it: the live window
    when one exists, otherwise the empty window that lazy creation would
    produce. -/
def windowOf (w : World) (ws : Workspace) : TmuxWindow :=
  (findWindow w (tmuxSessionName (repoNameOf w ws)) ws.directory_name).getD
    { session := tmuxSessionName (repoNameOf w ws),
      name := ws.directory_name, panes := [] }

/-- One orchestrator invocation, for stating lifecycle invariants over
    all modelled operations at once. -/
inductive Op
  | createOp (repoId ident branch : String) (mode : ContainerMode)
      (containerOk : Bool) (newId : String)
  | archiveOp (wsId : String) (force : Bool)
  | openOp (wsId : String)
  deriving DecidableEq, Repr

/-- Effect of one orchestrator invocation on the world. -/
def applyOp (w : World) (op : Op) : World :=
  match op with
  | Op.createOp repoId ident branch mode ok newId =>
    (create w repoId ident branch mode ok newId).world
  | Op.archiveOp wsId force => (archive w wsId force).world
  | Op.openOp wsId => (openAgent w wsId).world

/-! Concrete sample data, used to evaluate the model on closed inputs. -/

def repoFrontend : Repo := { id := "r1", name := "frontend" }

def shellPane0 : TmuxPane :=
  { pane_index := 0, command := "zsh", is_active := true,
    workspace_path := workspacePath "frontend" "lisbon", pane_pid := 41 }

def wsLisbon : Workspace :=
  { id := "w1", repository_id := "r1", directory_name := "lisbon",
    branch := "fix/login", state := WorkspaceState.ready,
    container_mode := ContainerMode.localMode, container_id := none }

def cleanWorld : World :=
  { repos := [repoFrontend], workspaces := [wsLisbon],
    worktrees := [workspacePath "frontend" "lisbon"], dirtyPaths := [],
    windows := [], containers := [], networks := [] }

def wsLisbonC : Workspace :=
  { wsLisbon with container_mode := ContainerMode.containerMode,
                  container_id := some "c1" }

def wsNairobiC : Workspace :=
  { id := "w2", repository_id := "r1", directory_name := "nairobi",
    branch := "fix/nav", state := WorkspaceState.ready,
    container_mode := ContainerMode.containerMode, container_id := some "c2" }

def dirtyWorld : World :=
  { repos := [repoFrontend], workspaces := [wsLisbonC],
    worktrees := [workspacePath "frontend" "lisbon"],
    dirtyPaths := [workspacePath "frontend" "lisbon"],
    windows := [{ session := "frontend", name := "lisbon", panes := [shellPane0] }],
    containers := ["c1"], networks := [networkName "frontend"] }

def twoContainerWorld : World :=
  { repos := [repoFrontend], workspaces := [wsLisbonC, wsNairobiC],
    worktrees := [workspacePath "frontend" "lisbon",
                  workspacePath "frontend" "nairobi"],
    dirtyPaths := [],
    windows := [], containers := ["c1", "c2"],
    networks := [networkName "frontend"] }

/-- Two registered repositories that share the name "frontend": the edge
    case the repository's TODO list leaves unhandled for tmux session
    naming. -/
def collisionWorld : World :=
  { repos := [{ id := "r1", name := "frontend" }, { id := "r2", name := "frontend" }],
    workspaces :=
      [{ id := "wsA", repository_id := "r1", directory_name := "alpha",
         branch := "a", state := WorkspaceState.ready,
         container_mode := ContainerMode.localMode, container_id := none },
       { id := "wsB", repository_id := "r2", directory_name := "beta",
         branch := "b", state := WorkspaceState.ready,
         container_mode := ContainerMode.localMode, container_id := none }],
    worktrees := [], dirtyPaths := [], windows := [], containers := [],
    networks := [] }

/-! Helper lemmas (shared). -/

theorem findWin_filter_none (l : List TmuxWindow) (s n : String) :
    findWin (l.filter (fun win => !(win.session == s && win.name == n))) s n
      = none := by
  simp only [findWin, List.find?_eq_none, List.mem_filter, Bool.not_eq_true']
  rintro x ⟨-, hx⟩
  simp [hx]

theorem not_mem_filter_ne {α : Type} [DecidableEq α] (x : α) (l : List α) :
    x ∉ l.filter (fun p => p ≠ x) := by
  simp [List.mem_filter]

theorem findWin_map_keys (f : TmuxWindow → TmuxWindow)
    (hf : ∀ v, (f v).session = v.session ∧ (f v).name = v.name)
    (l : List TmuxWindow) (s n : String) :
    findWin (l.map f) s n = (findWin l s n).map f := by
  unfold findWin
  rw [List.find?_map]
  have hpf : ((fun win => win.session == s && win.name == n) ∘ f)
      = (fun win : TmuxWindow => win.session == s && win.name == n) := by
    funext v
    simp [Function.comp, (hf v).1, (hf v).2]
  rw [hpf]

theorem repoNameOf_eq {w : World} {ws : Workspace} {repo : Repo}
    (hrepo : findRepo w ws.repository_id = some repo) :
    repoNameOf w ws = repo.name := by
  unfold repoNameOf
  rw [hrepo]

theorem containerPhase_fst_fields (w : World) (ws : Workspace) (rn : String) :
    (containerPhase w ws rn).1.repos = w.repos ∧
    (containerPhase w ws rn).1.workspaces = w.workspaces ∧
    (containerPhase w ws rn).1.worktrees = w.worktrees ∧
    (containerPhase w ws rn).1.dirtyPaths = w.dirtyPaths ∧
    (containerPhase w ws rn).1.windows = w.windows := by
  refine ⟨?_, ?_, ?_, ?_, ?_⟩ <;>
    · unfold containerPhase
      cases hm : ws.container_mode <;> cases hc : ws.container_id <;>
        simp only [hm, hc] <;>
        first
          | rfl
          | (by_cases hu : networkUnused w.workspaces ws = true <;> simp [hu])

theorem containerPhase_containers_removed (w : World) (ws : Workspace)
    (rn cid : String)
    (hmode : ws.container_mode = ContainerMode.containerMode)
    (hcid : ws.container_id = some cid) :
    (containerPhase w ws rn).1.containers
      = w.containers.filter (fun c => c ≠ cid) := by
  unfold containerPhase
  simp only [hmode, hcid]
  by_cases hu : networkUnused w.workspaces ws = true <;> simp [hu]

theorem containerPhase_networks_of_used (w : World) (ws : Workspace)
    (rn : String) (hu : networkUnused w.workspaces ws = false) :
    (containerPhase w ws rn).1.networks = w.networks := by
  unfold containerPhase
  cases hm : ws.container_mode <;> cases hc : ws.container_id <;>
    simp only [hm, hc] <;> simp [hu]

theorem containerPhase_networks_of_unused (w : World) (ws : Workspace)
    (rn : String)
    (hmode : ws.container_mode = ContainerMode.containerMode)
    (hu : networkUnused w.workspaces ws = true) :
    (containerPhase w ws rn).1.networks
      = w.networks.filter (fun n => n ≠ networkName rn) := by
  unfold containerPhase
  simp only [hmode]
  cases hc : ws.container_id <;> simp [hu]

theorem containerPhase_snd_actions (w : World) (ws : Workspace) (rn : String) :
    (∀ a ∈ (containerPhase w ws rn).2,
      (∃ c, a = Action.removeContainer c) ∨
      (∃ m, a = Action.removeNetwork m)) ∧
    (∀ cid, ws.container_mode = ContainerMode.containerMode →
      ws.container_id = some cid →
      Action.removeContainer cid ∈ (containerPhase w ws rn).2) := by
  constructor
  · unfold containerPhase
    cases hm : ws.container_mode <;> cases hc : ws.container_id <;>
      simp only [hm, hc] <;>
      by_cases hu : networkUnused w.workspaces ws = true <;> simp [hu]
  · intro cid hmode hcid
    unfold containerPhase
    simp only [hmode, hcid]
    by_cases hu : networkUnused w.workspaces ws = true <;> simp [hu]

theorem archive_dirty_stops (w : World) (wsId : String) (ws : Workspace)
    (hfind : findWorkspace w wsId = some ws)
    (hready : ws.state = WorkspaceState.ready)
    (hd : isDirty w (workspacePath (repoNameOf w ws) ws.directory_name)
      = true) :
    archive w wsId false = ⟨w, Except.error OrchError.dirtyWorktree⟩ := by
  unfold archive
  simp only [hfind, hready, hd, Bool.not_false, Bool.true_and, if_pos]

theorem archive_ready_not_dirty (w : World) (wsId : String) (ws : Workspace)
    (force : Bool)
    (hfind : findWorkspace w wsId = some ws)
    (hready : ws.state = WorkspaceState.ready)
    (hnd : (!force && isDirty w
      (workspacePath (repoNameOf w ws) ws.directory_name)) = false) :
    archive w wsId force = archiveTeardown w wsId ws := by
  unfold archive
  simp only [hfind, hready, hnd, Bool.false_eq_true, if_false]

theorem archiveTeardown_outcome (w : World) (wsId : String) (ws : Workspace) :
    (archiveTeardown w wsId ws).outcome =
      Except.ok (Action.killWindow (tmuxSessionName (repoNameOf w ws))
          ws.directory_name ::
        (containerPhase
          { w with windows := w.windows.filter (fun win =>
              !(win.session == tmuxSessionName (repoNameOf w ws) &&
                win.name == ws.directory_name)) } ws (repoNameOf w ws)).2 ++
        [Action.removeWorktree
          (workspacePath (repoNameOf w ws) ws.directory_name),
         Action.persistArchived wsId]) := rfl

theorem archiveTeardown_windows (w : World) (wsId : String) (ws : Workspace) :
    (archiveTeardown w wsId ws).world.windows
      = w.windows.filter (fun win =>
          !(win.session == tmuxSessionName (repoNameOf w ws) &&
            win.name == ws.directory_name)) := by
  simp only [archiveTeardown]
  rw [(containerPhase_fst_fields _ ws _).2.2.2.2]

theorem archiveTeardown_worktrees (w : World) (wsId : String) (ws : Workspace) :
    (archiveTeardown w wsId ws).world.worktrees
      = w.worktrees.filter (fun p =>
          p ≠ workspacePath (repoNameOf w ws) ws.directory_name) := by
  simp only [archiveTeardown]
  rw [(containerPhase_fst_fields _ ws _).2.2.1]

theorem archiveTeardown_workspaces (w : World) (wsId : String) (ws : Workspace) :
    (archiveTeardown w wsId ws).world.workspaces
      = w.workspaces.map (fun r =>
          if r.id = wsId then
            { r with state := WorkspaceState.archived, container_id := none }
          else r) := by
  simp only [archiveTeardown]
  rw [(containerPhase_fst_fields _ ws _).2.1]

theorem archiveTeardown_containers (w : World) (wsId : String) (ws : Workspace)
    (cid : String)
    (hmode : ws.container_mode = ContainerMode.containerMode)
    (hcid : ws.container_id = some cid) :
    (archiveTeardown w wsId ws).world.containers
      = w.containers.filter (fun c => c ≠ cid) := by
  simp only [archiveTeardown]
  rw [containerPhase_containers_removed _ ws _ cid hmode hcid]

theorem archiveTeardown_networks_of_used (w : World) (wsId : String)
    (ws : Workspace) (hu : networkUnused w.workspaces ws = false) :
    (archiveTeardown w wsId ws).world.networks = w.networks := by
  simp only [archiveTeardown]
  exact containerPhase_networks_of_used _ ws _ hu

theorem archiveTeardown_networks_of_unused (w : World) (wsId : String)
    (ws : Workspace)
    (hmode : ws.container_mode = ContainerMode.containerMode)
    (hu : networkUnused w.workspaces ws = true) :
    (archiveTeardown w wsId ws).world.networks
      = w.networks.filter (fun n => n ≠ networkName (repoNameOf w ws)) := by
  simp only [archiveTeardown]
  exact containerPhase_networks_of_unused _ ws _ hmode hu

theorem ensureWindow_fields (w : World) (s n : String) :
    (ensureWindow w s n).repos = w.repos ∧
    (ensureWindow w s n).workspaces = w.workspaces ∧
    (ensureWindow w s n).worktrees = w.worktrees ∧
    (ensureWindow w s n).dirtyPaths = w.dirtyPaths ∧
    (ensureWindow w s n).containers = w.containers ∧
    (ensureWindow w s n).networks = w.networks := by
  unfold ensureWindow
  split
  · exact ⟨rfl, rfl, rfl, rfl, rfl, rfl⟩
  · exact ⟨rfl, rfl, rfl, rfl, rfl, rfl⟩

theorem findWindow_ensureWindow (w : World) (s n : String) :
    findWindow (ensureWindow w s n) s n
      = some ((findWindow w s n).getD
          { session := s, name := n, panes := [] }) := by
  unfold ensureWindow
  cases hf : findWindow w s n with
  | some win => simpa using hf
  | none =>
    show findWin (w.windows ++ [{ session := s, name := n, panes := [] }]) s n
      = some { session := s, name := n, panes := [] }
    unfold findWin
    rw [List.find?_append]
    have h1 : w.windows.find?
        (fun win => win.session == s && win.name == n) = none := hf
    rw [h1]
    simp [List.find?]

/-! Theorems for the claims. -/

/-- C8: a pane is classified as a shell pane exactly when its currently
    running program name is in the fixed allow-list zsh, bash, fish, sh;
    a pane running any other program is a non-shell (agent) pane. -/
theorem isShellPane_iff_allowlist (p : TmuxPane) :
    (isShellPane p = true ↔
      (p.command = "zsh" ∨ p.command = "bash" ∨ p.command = "fish" ∨
       p.command = "sh")) ∧
    (isShellPane p = false ↔
      (p.command ≠ "zsh" ∧ p.command ≠ "bash" ∧ p.command ≠ "fish" ∧
       p.command ≠ "sh")) := by
  have hmem : isShellPane p = true ↔
      (p.command = "zsh" ∨ p.command = "bash" ∨ p.command = "fish" ∨
       p.command = "sh") := by
    simp [isShellPane, SHELLS]
  have hmem2 : isShellPane p = false ↔
      ¬(p.command = "zsh" ∨ p.command = "bash" ∨ p.command = "fish" ∨
        p.command = "sh") := by
    rw [← hmem]
    cases isShellPane p <;> simp
  refine ⟨hmem, ?_⟩
  rw [hmem2]
  simp [not_or]

/-- C10: the derived worktree status of the frontend agrees, on every
    workspace and every live pane set, with the claim's case analysis:
    "archived" whenever the workspace state is archived regardless of
    panes, else "idle" when the pane set is empty, else "active" when at
    least one pane is a non-shell (agent) pane, else "shell-only". -/
theorem getWorktreeStatus_cases (ws : Workspace)
    (info : Option WorkspacePaneInfo) :
    getWorktreeStatus ws info = worktreeStatusSpec ws info := by
  cases info with
  | none => simp [getWorktreeStatus, worktreeStatusSpec]
  | some i =>
    simp only [getWorktreeStatus, worktreeStatusSpec]
    by_cases harch : ws.state = WorkspaceState.archived
    · simp [harch]
    · rw [if_neg harch, if_neg harch]
      by_cases hnil : i.panes = []
      · simp [hnil]
      · rw [if_neg hnil]
        have hlen : (i.panes.length == 0) = false := by
          simp [List.length_eq_zero, hnil]
        rw [hlen]
        have hft : ¬((false : Bool) = true) := by decide
        rw [if_neg hft]
        have hany : (i.panes.any fun p => !isShellPane p) = true ↔
            ∃ p ∈ i.panes, isShellPane p = false := by
          simp [List.any_eq_true]
        by_cases hc : ∃ p ∈ i.panes, isShellPane p = false
        · rw [if_pos (hany.mpr hc), if_pos hc]
        · rw [if_neg (fun hh => hc (hany.mp hh)), if_neg hc]

/-- C9: tmux session-name collisions between two repositories sharing a
    name are not resolved in this repository (it is an explicit TODO): the
    session name is exactly the repository name, with no numeric suffix,
    so opening the agent in workspaces of two same-named repositories puts
    both windows in one identically-named session. -/
theorem tmux_collision_not_suffixed :
    tmuxSessionName "frontend" = "frontend" ∧
    ((openAgent (openAgent collisionWorld "wsA").world "wsB").world.windows.map
      (fun v => v.session)) = ["frontend", "frontend"] := by
  constructor
  · rfl
  · rfl

/-- C2: a Create call is rejected with a ValidationError, with the world
    (registry rows, checkouts, windows, containers) left completely
    untouched, whenever a workspace with the same identifier already
    exists under the repository (in any state), or the identifier is
    empty, or it contains whitespace. -/
theorem create_rejects_invalid (w : World) (repoId ident branch : String)
    (mode : ContainerMode) (containerOk : Bool) (newId : String)
    (h : (∃ ws ∈ w.workspaces, ws.repository_id = repoId ∧
            ws.directory_name = ident)
      ∨ ident = ""
      ∨ (∃ c ∈ ident.data, c.isWhitespace = true)) :
    (∃ msg, (create w repoId ident branch mode containerOk newId).outcome
        = Except.error (OrchError.validationError msg)) ∧
    (create w repoId ident branch mode containerOk newId).world = w := by
  have hval : validate repoId ident w.workspaces ≠ "" := by
    intro he
    unfold validate at he
    split at he
    · exact absurd he (by decide)
    · split at he
      · exact absurd he (by decide)
      · split at he
        · exact absurd he (by decide)
        · rename_i h1 h2 h3
          rcases h with ⟨ws, hmem, hrep, hdir⟩ | hemp | ⟨c, hc, hwc⟩
          · refine h3 ?_
            simp only [List.any_eq_true, List.mem_filter, decide_eq_true_eq]
            exact ⟨ws, ⟨hmem, hrep⟩, hdir⟩
          · exact h1 (by rw [hemp]; rfl)
          · refine h2 ?_
            simp only [List.any_eq_true]
            exact ⟨c, hc, hwc⟩
  have hred : create w repoId ident branch mode containerOk newId =
      ⟨w, Except.error
        (OrchError.validationError (validate repoId ident w.workspaces))⟩ := by
    unfold create
    rw [if_neg hval]
  rw [hred]
  exact ⟨⟨validate repoId ident w.workspaces, rfl⟩, rfl⟩

/-- C7: when container creation fails during a container-mode Create, the
    workspace row still exists in the `ready` state with no container id,
    the checkout is not rolled back, and the container error is surfaced
    to the caller. -/
theorem create_container_failure_keeps_workspace
    (w : World) (repoId ident branch newId : String) (repo : Repo)
    (hval : validate repoId ident w.workspaces = "")
    (hrepo : findRepo w repoId = some repo)
    (hpath : w.worktrees.contains (workspacePath repo.name ident) = false) :
    (create w repoId ident branch ContainerMode.containerMode false
        newId).outcome = Except.error OrchError.containerError ∧
    workspacePath repo.name ident ∈
      (create w repoId ident branch ContainerMode.containerMode false
        newId).world.worktrees ∧
    ∃ ws ∈ (create w repoId ident branch ContainerMode.containerMode false
        newId).world.workspaces,
      ws.id = newId ∧ ws.directory_name = ident ∧
      ws.state = WorkspaceState.ready ∧ ws.container_id = none := by
  have hpath2 : workspacePath repo.name ident ∉ w.worktrees := by
    simpa using hpath
  refine ⟨?_, ?_, ?_⟩
  · simp [create, hval, hrepo, hpath2]
  · simp [create, hval, hrepo, hpath2]
  · refine ⟨{ id := newId, repository_id := repoId, directory_name := ident,
              branch := branch, state := WorkspaceState.ready,
              container_mode := ContainerMode.containerMode,
              container_id := none }, ?_, rfl, rfl, rfl, rfl⟩
    simp [create, hval, hrepo, hpath2]

/-- C1: archiving a workspace whose checkout is dirty with `force` unset
    fails with the DirtyWorktree (Conflict) error and changes nothing —
    checkout, window, and container state are exactly as before; the
    subsequent Archive invocation with `force` set succeeds and performs
    the full teardown: the window is gone, the worktree is gone, a
    recorded container of a container-mode workspace is gone, and the row
    is persisted as archived. -/
theorem archive_dirty_protection (w : World) (wsId : String)
    (ws : Workspace) (repo : Repo)
    (hfind : findWorkspace w wsId = some ws)
    (hready : ws.state = WorkspaceState.ready)
    (hrepo : findRepo w ws.repository_id = some repo)
    (hdirty : isDirty w (workspacePath repo.name ws.directory_name) = true) :
    (archive w wsId false).world = w ∧
    (archive w wsId false).outcome = Except.error OrchError.dirtyWorktree ∧
    (∃ trace, (archive (archive w wsId false).world wsId true).outcome
        = Except.ok trace) ∧
    findWindow (archive (archive w wsId false).world wsId true).world
      (tmuxSessionName repo.name) ws.directory_name = none ∧
    workspacePath repo.name ws.directory_name ∉
      (archive (archive w wsId false).world wsId true).world.worktrees ∧
    (∀ cid, ws.container_mode = ContainerMode.containerMode →
      ws.container_id = some cid →
      cid ∉ (archive (archive w wsId false).world wsId true).world.containers) ∧
    (∃ ws2 ∈ (archive (archive w wsId false).world wsId true).world.workspaces,
      ws2.id = wsId ∧ ws2.state = WorkspaceState.archived) := by
  have hrn : repoNameOf w ws = repo.name := repoNameOf_eq hrepo
  have h1 : archive w wsId false = ⟨w, Except.error OrchError.dirtyWorktree⟩ :=
    archive_dirty_stops w wsId ws hfind hready (by rw [hrn]; exact hdirty)
  have h2 : archive w wsId true = archiveTeardown w wsId ws :=
    archive_ready_not_dirty w wsId ws true hfind hready (by simp)
  have hid : ws.id = wsId := by
    have := List.find?_some hfind
    simpa using this
  have hmem : ws ∈ w.workspaces := List.mem_of_find?_eq_some hfind
  simp only [h1]
  refine ⟨trivial, trivial, ?_, ?_, ?_, ?_, ?_⟩
  · rw [h2]
    exact ⟨_, rfl⟩
  · show findWin (archive w wsId true).world.windows
      (tmuxSessionName repo.name) ws.directory_name = none
    rw [h2, archiveTeardown_windows, hrn]
    exact findWin_filter_none _ _ _
  · rw [h2, archiveTeardown_worktrees, hrn]
    exact not_mem_filter_ne _ _
  · intro cid hmode hcid
    rw [h2, archiveTeardown_containers w wsId ws cid hmode hcid]
    exact not_mem_filter_ne _ _
  · rw [h2, archiveTeardown_workspaces]
    refine ⟨{ ws with state := WorkspaceState.archived, container_id := none },
      ?_, hid, rfl⟩
    have : (if ws.id = wsId then
        { ws with state := WorkspaceState.archived, container_id := none }
      else ws) =
        { ws with state := WorkspaceState.archived, container_id := none } :=
      if_pos hid
    rw [← this]
    exact List.mem_map_of_mem _ hmem

/-- C4: every successful Archive execution performs its teardown steps in
    this order: the multiplexer window is killed first, then (only
    container/network removals in between, with the container of a
    container-mode workspace among them) the worktree is removed, and the
    archived state is persisted last. -/
theorem archive_teardown_order (w : World) (wsId : String) (force : Bool)
    (trace : List Action)
    (h : (archive w wsId force).outcome = Except.ok trace) :
    ∃ session nme cacts path,
      trace = Action.killWindow session nme :: cacts ++
        [Action.removeWorktree path, Action.persistArchived wsId] ∧
      (∀ a ∈ cacts, (∃ c, a = Action.removeContainer c) ∨
        (∃ m, a = Action.removeNetwork m)) ∧
      (∀ ws, findWorkspace w wsId = some ws →
        ws.container_mode = ContainerMode.containerMode →
        ∀ cid, ws.container_id = some cid →
          Action.removeContainer cid ∈ cacts) := by
  cases hfind : findWorkspace w wsId with
  | none =>
    rw [archive, hfind] at h
    exact absurd h (by simp)
  | some ws =>
    cases hst : ws.state with
    | archived =>
      unfold archive at h
      simp only [hfind, hst] at h
      exact absurd h (by simp)
    | ready =>
      by_cases hd : (!force && isDirty w
          (workspacePath (repoNameOf w ws) ws.directory_name)) = true
      · unfold archive at h
        simp only [hfind, hst, hd, if_pos] at h
        exact absurd h (by simp)
      · have hnd : (!force && isDirty w
            (workspacePath (repoNameOf w ws) ws.directory_name)) = false :=
          Bool.eq_false_iff.mpr hd
        rw [archive_ready_not_dirty w wsId ws force hfind hst hnd,
          archiveTeardown_outcome] at h
        have htr := Except.ok.inj h
        subst htr
        refine ⟨tmuxSessionName (repoNameOf w ws), ws.directory_name, _,
          workspacePath (repoNameOf w ws) ws.directory_name, rfl,
          (containerPhase_snd_actions _ ws _).1, ?_⟩
        intro ws0 hfind0 hmode0 cid hcid0
        have hws0 : ws0 = ws := (Option.some.inj hfind0).symm
        subst hws0
        exact (containerPhase_snd_actions _ ws0 _).2 cid hmode0 hcid0

/-- C6: archiving a container-mode workspace leaves the repository's
    shared network intact exactly while some other non-archived
    container-mode workspace of the same repository remains, and removes
    it when none does — the `networkUnused` guard is characterised and
    both outcomes of a (forced) archive are proved. -/
theorem archive_network_sharing (w : World) (wsId : String)
    (ws : Workspace) (repo : Repo)
    (hfind : findWorkspace w wsId = some ws)
    (hready : ws.state = WorkspaceState.ready)
    (hmode : ws.container_mode = ContainerMode.containerMode)
    (hrepo : findRepo w ws.repository_id = some repo) :
    (networkUnused w.workspaces ws = false ↔
      ∃ r ∈ w.workspaces, r.id ≠ ws.id ∧
        r.repository_id = ws.repository_id ∧
        r.state = WorkspaceState.ready ∧
        r.container_mode = ContainerMode.containerMode) ∧
    (networkUnused w.workspaces ws = false →
      (archive w wsId true).world.networks = w.networks) ∧
    (networkUnused w.workspaces ws = true →
      networkName repo.name ∉ (archive w wsId true).world.networks) := by
  have hrn : repoNameOf w ws = repo.name := repoNameOf_eq hrepo
  have hred : archive w wsId true = archiveTeardown w wsId ws :=
    archive_ready_not_dirty w wsId ws true hfind hready (by simp)
  refine ⟨?_, ?_, ?_⟩
  · unfold networkUnused
    simp [List.any_eq_true, and_assoc]
  · intro hu
    rw [hred]
    exact archiveTeardown_networks_of_used w wsId ws hu
  · intro hu
    rw [hred, archiveTeardown_networks_of_unused w wsId ws hmode hu, hrn]
    exact not_mem_filter_ne _ _

theorem openAgent_ready_eq (w : World) (wsId : String) (ws : Workspace)
    (hfind : findWorkspace w wsId = some ws)
    (hready : ws.state = WorkspaceState.ready) :
    openAgent w wsId = openAgentReady w ws := by
  unfold openAgent
  simp only [hfind, hready]

theorem windowOf_keys (w : World) (ws : Workspace) :
    ((windowOf w ws).session == tmuxSessionName (repoNameOf w ws) &&
     (windowOf w ws).name == ws.directory_name) = true := by
  unfold windowOf
  cases hf : findWindow w (tmuxSessionName (repoNameOf w ws))
      ws.directory_name with
  | none => simp
  | some win =>
    have hf2 : List.find? (fun win => win.session ==
        tmuxSessionName (repoNameOf w ws) &&
        win.name == ws.directory_name) w.windows = some win := hf
    have hp := List.find?_some hf2
    simpa using hp

theorem openAgentReady_attaches (w : World) (ws : Workspace) (win : TmuxWindow)
    (hfw : findWindow w (tmuxSessionName (repoNameOf w ws))
      ws.directory_name = some win)
    (hagent : win.panes.any (fun p => !isShellPane p) = true) :
    openAgentReady w ws = ⟨w, Except.ok OpenStatus.attached⟩ := by
  have hens : ensureWindow w (tmuxSessionName (repoNameOf w ws))
      ws.directory_name = w := by
    unfold ensureWindow
    simp only [hfw]
  simp [openAgentReady, hens, hfw, hagent]

theorem openAgentReady_created_facts (w : World) (ws : Workspace)
    (hAll : (windowOf w ws).panes.all isShellPane = true) :
    (openAgentReady w ws).outcome = Except.ok OpenStatus.created ∧
    (openAgentReady w ws).world.repos = w.repos ∧
    (openAgentReady w ws).world.workspaces = w.workspaces ∧
    findWindow (openAgentReady w ws).world
        (tmuxSessionName (repoNameOf w ws)) ws.directory_name
      = some { windowOf w ws with
          panes := (windowOf w ws).panes ++
            [agentPane (windowOf w ws).panes.length
              (workspacePath (repoNameOf w ws) ws.directory_name)] } := by
  have hNoAg : (windowOf w ws).panes.any (fun p => !isShellPane p) = false := by
    rw [List.any_eq_false]
    intro x hx
    simp only [List.all_eq_true] at hAll
    simp [hAll x hx]
  have hwin : findWindow (ensureWindow w (tmuxSessionName (repoNameOf w ws))
      ws.directory_name) (tmuxSessionName (repoNameOf w ws)) ws.directory_name
      = some (windowOf w ws) :=
    findWindow_ensureWindow w _ _
  have hred : openAgentReady w ws =
      ⟨{ ensureWindow w (tmuxSessionName (repoNameOf w ws))
           ws.directory_name with
         windows := (addPaneToWindow
           (ensureWindow w (tmuxSessionName (repoNameOf w ws))
             ws.directory_name).windows
           (tmuxSessionName (repoNameOf w ws)) ws.directory_name
           (agentPane (windowOf w ws).panes.length
             (workspacePath (repoNameOf w ws) ws.directory_name))) },
       Except.ok OpenStatus.created⟩ := by
    simp only [openAgentReady]
    rw [hwin, Option.getD_some, if_neg (by simp [hNoAg])]
  refine ⟨by rw [hred], by rw [hred]; exact (ensureWindow_fields w _ _).1,
    by rw [hred]; exact (ensureWindow_fields w _ _).2.1, ?_⟩
  rw [hred]
  show findWin (addPaneToWindow
      (ensureWindow w (tmuxSessionName (repoNameOf w ws))
        ws.directory_name).windows
      (tmuxSessionName (repoNameOf w ws)) ws.directory_name
      (agentPane (windowOf w ws).panes.length
        (workspacePath (repoNameOf w ws) ws.directory_name)))
    (tmuxSessionName (repoNameOf w ws)) ws.directory_name = _
  unfold addPaneToWindow
  rw [findWin_map_keys _ (by
    intro v
    by_cases hv : (v.session == tmuxSessionName (repoNameOf w ws) &&
      v.name == ws.directory_name) = true <;> simp [hv])]
  have hwin2 : findWin (ensureWindow w (tmuxSessionName (repoNameOf w ws))
      ws.directory_name).windows (tmuxSessionName (repoNameOf w ws))
      ws.directory_name = some (windowOf w ws) := hwin
  rw [hwin2]
  have hk := windowOf_keys w ws
  simp only [Bool.and_eq_true, beq_iff_eq] at hk
  simp [hk.1, hk.2]

/-- C3: opening the agent twice in succession on a ready workspace whose
    window has no agent pane creates exactly one agent pane: the first
    call returns `created`, the second returns `attached`, changes
    nothing, and the window then holds exactly one non-shell pane. -/
theorem open_idempotent (w : World) (wsId : String) (ws : Workspace)
    (repo : Repo)
    (hfind : findWorkspace w wsId = some ws)
    (hready : ws.state = WorkspaceState.ready)
    (hrepo : findRepo w ws.repository_id = some repo)
    (hnoagent : ∀ win, findWindow w (tmuxSessionName repo.name)
        ws.directory_name = some win → win.panes.all isShellPane = true) :
    (openAgent w wsId).outcome = Except.ok OpenStatus.created ∧
    (openAgent (openAgent w wsId).world wsId).outcome
      = Except.ok OpenStatus.attached ∧
    (openAgent (openAgent w wsId).world wsId).world
      = (openAgent w wsId).world ∧
    (∃ win, findWindow (openAgent w wsId).world (tmuxSessionName repo.name)
        ws.directory_name = some win ∧
      (win.panes.filter (fun p => !isShellPane p)).length = 1) := by
  have hrn : repoNameOf w ws = repo.name := repoNameOf_eq hrepo
  have hAll : (windowOf w ws).panes.all isShellPane = true := by
    unfold windowOf
    rw [hrn]
    cases hf : findWindow w (tmuxSessionName repo.name)
        ws.directory_name with
    | none => simp
    | some win => simpa using hnoagent win hf
  obtain ⟨hout1, hrepos1, hwss1, hfw2⟩ := openAgentReady_created_facts w ws hAll
  have hredOpen : openAgent w wsId = openAgentReady w ws :=
    openAgent_ready_eq w wsId ws hfind hready
  have hrn2 : repoNameOf (openAgentReady w ws).world ws = repoNameOf w ws := by
    unfold repoNameOf findRepo
    rw [hrepos1]
  have hfind2 : findWorkspace (openAgentReady w ws).world wsId = some ws := by
    unfold findWorkspace
    rw [hwss1]
    exact hfind
  have hredOpen2 : openAgent (openAgentReady w ws).world wsId
      = openAgentReady (openAgentReady w ws).world ws :=
    openAgent_ready_eq _ wsId ws hfind2 hready
  have hagent : ({ windowOf w ws with
      panes := (windowOf w ws).panes ++
        [agentPane (windowOf w ws).panes.length
          (workspacePath (repoNameOf w ws) ws.directory_name)] }
      : TmuxWindow).panes.any (fun p => !isShellPane p) = true := by
    simp [agentPane, isShellPane, SHELLS]
  have hatt : openAgentReady (openAgentReady w ws).world ws
      = ⟨(openAgentReady w ws).world, Except.ok OpenStatus.attached⟩ :=
    openAgentReady_attaches _ ws _ (by rw [hrn2]; exact hfw2) hagent
  refine ⟨?_, ?_, ?_, ?_⟩
  · rw [hredOpen]
    exact hout1
  · rw [hredOpen, hredOpen2, hatt]
  · rw [hredOpen, hredOpen2, hatt]
  · rw [hredOpen]
    refine ⟨_, by rw [← hrn]; exact hfw2, ?_⟩
    simp only [List.filter_append]
    have h1 : (windowOf w ws).panes.filter (fun p => !isShellPane p) = [] := by
      rw [List.filter_eq_nil_iff]
      intro a ha
      simp only [List.all_eq_true] at hAll
      simp [hAll a ha]
    rw [h1]
    simp [agentPane, isShellPane, SHELLS]

theorem openAgent_workspaces (w : World) (wsId : String) :
    (openAgent w wsId).world.workspaces = w.workspaces := by
  unfold openAgent
  cases hf : findWorkspace w wsId with
  | none => rfl
  | some ws =>
    cases hs : ws.state with
    | archived => simp [hs]
    | ready =>
      simp only [hs]
      show (openAgentReady w ws).world.workspaces = w.workspaces
      simp only [openAgentReady]
      split
      · exact (ensureWindow_fields w _ _).2.1
      · exact (ensureWindow_fields w _ _).2.1

theorem create_preserves_rows (w : World) (repoId ident branch : String)
    (mode : ContainerMode) (cok : Bool) (newId : String) (ws : Workspace)
    (hmem : ws ∈ w.workspaces) :
    ∃ ws2 ∈ (create w repoId ident branch mode cok newId).world.workspaces,
      ws2.id = ws.id ∧ ws2.state = ws.state := by
  by_cases hval : validate repoId ident w.workspaces = ""
  · cases hr : findRepo w repoId with
    | none =>
      simp only [create, hval, reduceIte, hr]
      exact ⟨ws, hmem, rfl, rfl⟩
    | some repo =>
      by_cases hp : (w.worktrees.contains (workspacePath repo.name ident))
          = true
      · simp only [create, hval, reduceIte, hr, hp]
        exact ⟨ws, hmem, rfl, rfl⟩
      · have hp2 : (w.worktrees.contains (workspacePath repo.name ident))
            = false := Bool.eq_false_iff.mpr hp
        cases mode with
        | localMode =>
          simp only [create, hval, reduceIte, hr, hp2]
          exact ⟨ws, List.mem_append_left _ hmem, rfl, rfl⟩
        | containerMode =>
          cases cok with
          | false =>
            simp only [create, hval, reduceIte, hr, hp2]
            exact ⟨ws, List.mem_append_left _ hmem, rfl, rfl⟩
          | true =>
            simp only [create, hval, reduceIte, hr, hp2]
            refine ⟨if ws.id = newId then
                { ws with container_id := some ("bunyan-container-" ++ newId) }
              else ws,
              List.mem_map_of_mem _ (List.mem_append_left _ hmem), ?_, ?_⟩ <;>
              by_cases hid : ws.id = newId <;> simp [hid]
  · unfold create
    simp only []
    rw [if_neg hval]
    exact ⟨ws, hmem, rfl, rfl⟩

theorem archive_preserves_rows (w : World) (wsId : String) (force : Bool)
    (ws : Workspace) (hmem : ws ∈ w.workspaces) :
    ∃ ws2 ∈ (archive w wsId force).world.workspaces,
      ws2.id = ws.id ∧
      (ws2.state = ws.state ∨
        (ws.state = WorkspaceState.ready ∧
         ws2.state = WorkspaceState.archived ∧ ws.id = wsId)) := by
  unfold archive
  cases hf : findWorkspace w wsId with
  | none => exact ⟨ws, hmem, rfl, Or.inl rfl⟩
  | some ws0 =>
    cases hs : ws0.state with
    | archived =>
      simp only [hs]
      exact ⟨ws, hmem, rfl, Or.inl rfl⟩
    | ready =>
      simp only [hs]
      by_cases hd : (!force && isDirty w
          (workspacePath (repoNameOf w ws0) ws0.directory_name)) = true
      · rw [if_pos hd]
        exact ⟨ws, hmem, rfl, Or.inl rfl⟩
      · rw [if_neg hd]
        rw [archiveTeardown_workspaces]
        refine ⟨if ws.id = wsId then
            { ws with state := WorkspaceState.archived, container_id := none }
          else ws, List.mem_map_of_mem _ hmem, ?_, ?_⟩
        · by_cases hid : ws.id = wsId <;> simp [hid]
        · by_cases hid : ws.id = wsId
          · cases hws : ws.state with
            | archived => simp [hid, hws]
            | ready => exact Or.inr (by simp [hid, hws])
          · simp [hid]

/-- C5: every workspace state is ready or archived (the state type has
    exactly those two constructors); every modelled operation keeps every
    existing row queryable under its id, and the only state change any of
    them makes is ready → archived, performed by Archive on that very
    workspace id — in particular archived is terminal and rows are never
    deleted. -/
theorem workspace_lifecycle (w : World) (op : Op) (ws : Workspace)
    (hmem : ws ∈ w.workspaces) :
    ∃ ws2 ∈ (applyOp w op).workspaces, ws2.id = ws.id ∧
      (ws2.state = ws.state ∨
        (ws.state = WorkspaceState.ready ∧
         ws2.state = WorkspaceState.archived ∧
         ∃ force, op = Op.archiveOp ws.id force)) := by
  cases op with
  | createOp repoId ident branch mode cok newId =>
    obtain ⟨ws2, h1, h2, h3⟩ :=
      create_preserves_rows w repoId ident branch mode cok newId ws hmem
    exact ⟨ws2, h1, h2, Or.inl h3⟩
  | archiveOp wsId force =>
    obtain ⟨ws2, h1, h2, h3⟩ := archive_preserves_rows w wsId force ws hmem
    refine ⟨ws2, h1, h2, ?_⟩
    rcases h3 with h3 | ⟨ha, hb, hc⟩
    · exact Or.inl h3
    · exact Or.inr ⟨ha, hb, force, by rw [hc]⟩
  | openOp wsId =>
    refine ⟨ws, ?_, rfl, Or.inl rfl⟩
    rw [show (applyOp w (Op.openOp wsId)).workspaces = w.workspaces from
      openAgent_workspaces w wsId]
    exact hmem

/-! Witnesses: each claim theorem with hypotheses applied at a concrete
    world. -/

/-- Witness for C2: creating a second "lisbon" under repo r1 is rejected
    and the world is untouched. -/
theorem create_rejects_invalid_witness :
    (∃ msg, (create cleanWorld "r1" "lisbon" "fix/login"
        ContainerMode.localMode true "w9").outcome
        = Except.error (OrchError.validationError msg)) ∧
    (create cleanWorld "r1" "lisbon" "fix/login"
        ContainerMode.localMode true "w9").world = cleanWorld :=
  create_rejects_invalid cleanWorld "r1" "lisbon" "fix/login"
    ContainerMode.localMode true "w9" (by decide)

/-- Witness for C7 at a failing container creation for a fresh "porto"
    workspace. -/
theorem create_container_failure_keeps_workspace_witness :
    (create cleanWorld "r1" "porto" "fix/porto"
        ContainerMode.containerMode false "w9").outcome
      = Except.error OrchError.containerError ∧
    workspacePath "frontend" "porto" ∈
      (create cleanWorld "r1" "porto" "fix/porto"
        ContainerMode.containerMode false "w9").world.worktrees ∧
    ∃ ws ∈ (create cleanWorld "r1" "porto" "fix/porto"
        ContainerMode.containerMode false "w9").world.workspaces,
      ws.id = "w9" ∧ ws.directory_name = "porto" ∧
      ws.state = WorkspaceState.ready ∧ ws.container_id = none :=
  create_container_failure_keeps_workspace cleanWorld "r1" "porto"
    "fix/porto" "w9" repoFrontend (by decide) (by decide) (by decide)

/-- Witness for C1 at a dirty container-mode workspace. -/
theorem archive_dirty_protection_witness :
    (archive dirtyWorld "w1" false).world = dirtyWorld ∧
    (archive dirtyWorld "w1" false).outcome
      = Except.error OrchError.dirtyWorktree ∧
    (∃ trace, (archive (archive dirtyWorld "w1" false).world "w1"
        true).outcome = Except.ok trace) ∧
    findWindow (archive (archive dirtyWorld "w1" false).world "w1" true).world
      (tmuxSessionName "frontend") "lisbon" = none ∧
    workspacePath "frontend" "lisbon" ∉
      (archive (archive dirtyWorld "w1" false).world "w1"
        true).world.worktrees ∧
    (∀ cid, wsLisbonC.container_mode = ContainerMode.containerMode →
      wsLisbonC.container_id = some cid →
      cid ∉ (archive (archive dirtyWorld "w1" false).world "w1"
        true).world.containers) ∧
    (∃ ws2 ∈ (archive (archive dirtyWorld "w1" false).world "w1"
        true).world.workspaces,
      ws2.id = "w1" ∧ ws2.state = WorkspaceState.archived) :=
  archive_dirty_protection dirtyWorld "w1" wsLisbonC repoFrontend
    (by decide) (by decide) (by decide) (by decide)

/-- Witness for C4 at a successful forced archive of "lisbon". -/
theorem archive_teardown_order_witness :
    ∃ session nme cacts path,
      [Action.killWindow "frontend" "lisbon",
       Action.removeWorktree (workspacePath "frontend" "lisbon"),
       Action.persistArchived "w1"]
        = Action.killWindow session nme :: cacts ++
          [Action.removeWorktree path, Action.persistArchived "w1"] ∧
      (∀ a ∈ cacts, (∃ c, a = Action.removeContainer c) ∨
        (∃ m, a = Action.removeNetwork m)) ∧
      (∀ ws, findWorkspace cleanWorld "w1" = some ws →
        ws.container_mode = ContainerMode.containerMode →
        ∀ cid, ws.container_id = some cid →
          Action.removeContainer cid ∈ cacts) :=
  archive_teardown_order cleanWorld "w1" true
    [Action.killWindow "frontend" "lisbon",
     Action.removeWorktree (workspacePath "frontend" "lisbon"),
     Action.persistArchived "w1"] (by decide)

/-- Witness for C6: with "nairobi" still container-mode, archiving
    "lisbon" keeps the shared network. -/
theorem archive_network_sharing_witness :
    (networkUnused twoContainerWorld.workspaces wsLisbonC = false ↔
      ∃ r ∈ twoContainerWorld.workspaces, r.id ≠ wsLisbonC.id ∧
        r.repository_id = wsLisbonC.repository_id ∧
        r.state = WorkspaceState.ready ∧
        r.container_mode = ContainerMode.containerMode) ∧
    (networkUnused twoContainerWorld.workspaces wsLisbonC = false →
      (archive twoContainerWorld "w1" true).world.networks
        = twoContainerWorld.networks) ∧
    (networkUnused twoContainerWorld.workspaces wsLisbonC = true →
      networkName "frontend" ∉
        (archive twoContainerWorld "w1" true).world.networks) :=
  archive_network_sharing twoContainerWorld "w1" wsLisbonC repoFrontend
    (by decide) (by decide) (by decide) (by decide)

/-- Witness for C3: opening the agent twice on "lisbon" with no window
    yet. -/
theorem open_idempotent_witness :
    (openAgent cleanWorld "w1").outcome = Except.ok OpenStatus.created ∧
    (openAgent (openAgent cleanWorld "w1").world "w1").outcome
      = Except.ok OpenStatus.attached ∧
    (openAgent (openAgent cleanWorld "w1").world "w1").world
      = (openAgent cleanWorld "w1").world ∧
    (∃ win, findWindow (openAgent cleanWorld "w1").world
        (tmuxSessionName "frontend") "lisbon" = some win ∧
      (win.panes.filter (fun p => !isShellPane p)).length = 1) :=
  open_idempotent cleanWorld "w1" wsLisbon repoFrontend (by decide)
    (by decide) (by decide) (fun win h => Option.noConfusion h)

/-- Witness for C5 at the open operation on "lisbon". -/
theorem workspace_lifecycle_witness :
    ∃ ws2 ∈ (applyOp cleanWorld (Op.openOp "w1")).workspaces,
      ws2.id = wsLisbon.id ∧
      (ws2.state = wsLisbon.state ∨
        (wsLisbon.state = WorkspaceState.ready ∧
         ws2.state = WorkspaceState.archived ∧
         ∃ force, Op.openOp "w1" = Op.archiveOp wsLisbon.id force)) :=
  workspace_lifecycle cleanWorld (Op.openOp "w1") wsLisbon (by decide)

end Bunyan
